import Mathlib

/- Shallow embedding of crates/lair_keystore_api/src/actor.rs (lair keystore
client actor types).  Rust u32 values are embedded as Nat (all source code
paths only compare u32s for equality, so no wraparound is involved);
Vec<u8> buffers as List Nat; Arc<_> wrappers are value-transparent and are
flattened away; LairResult<T> = Result<T, LairError> is embedded as
Except String T, with the error message string carried through. -/

namespace LairKeystoreApi

/-- Byte buffer: Rust Vec of u8, embedded as a list of naturals. -/
abbrev Bytes := List Nat

/-- Tls keypair algorithm to use (repr u32 enum from actor.rs). -/
inductive TlsCertAlg
  | PkcsEd25519
  | PkcsEcdsaP256Sha256
  | PkcsEcdsaP384Sha384
deriving DecidableEq, Repr

/-- Numeric discriminant of each TlsCertAlg variant, as declared in the
source: PkcsEd25519 = 0x00000200, PkcsEcdsaP256Sha256 = 0x00000201,
PkcsEcdsaP384Sha384 = 0x00000202 (the value of the variant cast as u32). -/
def TlsCertAlg.toCode : TlsCertAlg → Nat
  | .PkcsEd25519 => 0x00000200
  | .PkcsEcdsaP256Sha256 => 0x00000201
  | .PkcsEcdsaP384Sha384 => 0x00000202

/-- Default for TlsCertAlg: Self::PkcsEd25519. -/
def TlsCertAlg.default : TlsCertAlg := .PkcsEd25519

/-- TlsCertAlg::parse, matching the source guard chain
`x if x == PkcsEd25519 as u32 => PkcsEd25519` etc., with the fallthrough
arm returning the error string used in the source. -/
def TlsCertAlg.parse (d : Nat) : Except String TlsCertAlg :=
  if d = TlsCertAlg.toCode .PkcsEd25519 then .ok .PkcsEd25519
  else if d = TlsCertAlg.toCode .PkcsEcdsaP256Sha256 then .ok .PkcsEcdsaP256Sha256
  else if d = TlsCertAlg.toCode .PkcsEcdsaP384Sha384 then .ok .PkcsEcdsaP384Sha384
  else .error ("invalide tls cert alg")

/-- Configuration for Tls Certificate Generation. -/
structure TlsCertOptions where
  alg : TlsCertAlg
deriving DecidableEq, Repr

/-- Default for TlsCertOptions: Self with alg: TlsCertAlg::PkcsEd25519. -/
def TlsCertOptions.default : TlsCertOptions := ⟨TlsCertAlg.PkcsEd25519⟩

/-- Keystore index type (newtype over u32). -/
structure KeystoreIndex where
  idx : Nat
deriving DecidableEq, Repr

/-- Lexicographic comparison of byte buffers, the order the derived Rust
Ord instance of Vec of u8 (and hence of Arc of Vec of u8) implements:
a proper prefix sorts first, otherwise the first differing byte decides. -/
def bytesLe : Bytes → Bytes → Bool
  | [], _ => true
  | _ :: _, [] => false
  | a :: as, b :: bs =>
    if a < b then true else if b < a then false else bytesLe as bs

/-- Der encoded Tls Certificate bytes (newtype over Arc of Vec of u8). -/
structure Cert where
  bytes : Bytes
deriving DecidableEq, Repr

/-- From of Vec of u8 for Cert: wrap the buffer (Arc::new flattened). -/
def Cert.fromVec (d : Bytes) : Cert := ⟨d⟩

/-- Into of Vec of u8 for Cert via the derived Into and Deref: read the
wrapped buffer back. -/
def Cert.into (c : Cert) : Bytes := c.bytes

/-- Derived ordering on Cert: order of the wrapped buffers. -/
def Cert.le (a b : Cert) : Bool := bytesLe a.bytes b.bytes

/-- Der encoded pkcs 8 Tls Certificate private key bytes. -/
structure CertPrivKey where
  bytes : Bytes
deriving DecidableEq, Repr

/-- From of Vec of u8 for CertPrivKey. -/
def CertPrivKey.fromVec (d : Bytes) : CertPrivKey := ⟨d⟩

/-- Into of Vec of u8 for CertPrivKey. -/
def CertPrivKey.into (c : CertPrivKey) : Bytes := c.bytes

/-- Derived ordering on CertPrivKey. -/
def CertPrivKey.le (a b : CertPrivKey) : Bool := bytesLe a.bytes b.bytes

/-- Sni encoded in given Tls Certificate (newtype over Arc of String). -/
structure CertSni where
  sni : String
deriving DecidableEq, Repr

/-- From of String for CertSni. -/
def CertSni.fromString (s : String) : CertSni := ⟨s⟩

/-- Into of String for CertSni. -/
def CertSni.into (c : CertSni) : String := c.sni

/-- Derived ordering on CertSni: order of the wrapped strings. -/
def CertSni.le (a b : CertSni) : Prop := a.sni ≤ b.sni

instance : DecidablePred fun p : CertSni × CertSni => CertSni.le p.1 p.2 :=
  fun p => inferInstanceAs (Decidable (p.1.sni ≤ p.2.sni))

/-- The 32 byte blake2b digest of given Tls Certificate. -/
structure CertDigest where
  bytes : Bytes
deriving DecidableEq, Repr

/-- From of Vec of u8 for CertDigest: wraps any buffer, no length check. -/
def CertDigest.fromVec (d : Bytes) : CertDigest := ⟨d⟩

/-- Into of Vec of u8 for CertDigest. -/
def CertDigest.into (c : CertDigest) : Bytes := c.bytes

/-- Derived ordering on CertDigest. -/
def CertDigest.le (a b : CertDigest) : Bool := bytesLe a.bytes b.bytes

/-- The 32 byte signature ed25519 public key. -/
structure SignEd25519PubKey where
  bytes : Bytes
deriving DecidableEq, Repr

/-- From of Vec of u8 for SignEd25519PubKey: wraps any buffer, no length
check. -/
def SignEd25519PubKey.fromVec (d : Bytes) : SignEd25519PubKey := ⟨d⟩

/-- Into of Vec of u8 for SignEd25519PubKey. -/
def SignEd25519PubKey.into (c : SignEd25519PubKey) : Bytes := c.bytes

/-- Derived ordering on SignEd25519PubKey. -/
def SignEd25519PubKey.le (a b : SignEd25519PubKey) : Bool :=
  bytesLe a.bytes b.bytes

/-- The 64 byte detached ed25519 signature data. -/
structure SignEd25519Signature where
  bytes : Bytes
deriving DecidableEq, Repr

/-- From of Vec of u8 for SignEd25519Signature: wraps any buffer, no
length check. -/
def SignEd25519Signature.fromVec (d : Bytes) : SignEd25519Signature := ⟨d⟩

/-- Into of Vec of u8 for SignEd25519Signature. -/
def SignEd25519Signature.into (c : SignEd25519Signature) : Bytes := c.bytes

/-- Derived ordering on SignEd25519Signature. -/
def SignEd25519Signature.le (a b : SignEd25519Signature) : Bool :=
  bytesLe a.bytes b.bytes

/-- Modelled from the spec: the external crypto capability behind
internal::sign_ed25519::sign_ed25519_verify, whose implementation is not
among the sources here (SignEd25519PubKey::verify merely delegates to it).
Per the spec, verification never fails: a well-formed 32 byte key and a
64 byte signature are checked by the ed25519 math (abstracted as the
parameter goodSig), and any malformed key or signature simply yields
Ok(false) rather than an error. -/
def sign_ed25519_verify (goodSig : Bytes → Bytes → Bytes → Bool)
    (pub_key : SignEd25519PubKey) (message : Bytes)
    (signature : SignEd25519Signature) : Except String Bool :=
  if pub_key.bytes.length = 32 ∧ signature.bytes.length = 64 then
    .ok (goodSig pub_key.bytes message signature.bytes)
  else
    .ok false

/-- SignEd25519PubKey::verify: delegate to the crypto capability. -/
def SignEd25519PubKey.verify (goodSig : Bytes → Bytes → Bytes → Bool)
    (k : SignEd25519PubKey) (message : Bytes)
    (signature : SignEd25519Signature) : Except String Bool :=
  sign_ed25519_verify goodSig k message signature

/-- The entry type for a given entry (repr u32 enum from actor.rs). -/
inductive LairEntryType
  | Invalid
  | TlsCert
  | SignEd25519
deriving DecidableEq, Repr

/-- Numeric discriminant of each LairEntryType variant, as declared in the
source: Invalid = 0x00000000, TlsCert = 0x00000100,
SignEd25519 = 0x00000200. -/
def LairEntryType.toCode : LairEntryType → Nat
  | .Invalid => 0x00000000
  | .TlsCert => 0x00000100
  | .SignEd25519 => 0x00000200

/-- Default for LairEntryType: Self::Invalid. -/
def LairEntryType.default : LairEntryType := .Invalid

/-- LairEntryType::parse, matching the source guard chain with the
fallthrough arm returning the error string used in the source. -/
def LairEntryType.parse (d : Nat) : Except String LairEntryType :=
  if d = LairEntryType.toCode .Invalid then .ok .Invalid
  else if d = LairEntryType.toCode .TlsCert then .ok .TlsCert
  else if d = LairEntryType.toCode .SignEd25519 then .ok .SignEd25519
  else .error ("invalide lair entry type")

/-- Get information about the server we are connected to. -/
structure LairServerInfo where
  name : String
  version : String
deriving DecidableEq, Repr

/-- Event types emitted by the Lair Client Actor Api (the ghost_chan
LairClientEvent): exactly one event in this version. -/
inductive LairClientEvent
  | request_unlock_passphrase
deriving DecidableEq, Repr

/-- Reply type of each LairClientEvent variant:
request_unlock_passphrase returns a String. -/
def LairClientEvent.Reply : LairClientEvent → Type
  | .request_unlock_passphrase => String

/-- The Lair Client Actor Api request union (the ghost_chan LairClientApi):
one constructor per fn declaration, carrying that fn's argument types. -/
inductive LairClientApi
  | lair_get_server_info
  | lair_get_last_entry_index
  | lair_get_entry_type (keystore_index : KeystoreIndex)
  | tls_cert_new_self_signed_from_entropy (options : TlsCertOptions)
  | tls_cert_get (keystore_index : KeystoreIndex)
  | tls_cert_get_cert_by_index (keystore_index : KeystoreIndex)
  | tls_cert_get_cert_by_digest (cert_digest : CertDigest)
  | tls_cert_get_cert_by_sni (cert_sni : CertSni)
  | tls_cert_get_priv_key_by_index (keystore_index : KeystoreIndex)
  | tls_cert_get_priv_key_by_digest (cert_digest : CertDigest)
  | tls_cert_get_priv_key_by_sni (cert_sni : CertSni)
  | sign_ed25519_new_from_entropy
  | sign_ed25519_get (keystore_index : KeystoreIndex)
  | sign_ed25519_sign_by_index (keystore_index : KeystoreIndex) (message : Bytes)
  | sign_ed25519_sign_by_pub_key (pub_key : SignEd25519PubKey) (message : Bytes)

/-- Operation tags: one per fn of the LairClientApi channel. -/
inductive LairApiOp
  | lair_get_server_info
  | lair_get_last_entry_index
  | lair_get_entry_type
  | tls_cert_new_self_signed_from_entropy
  | tls_cert_get
  | tls_cert_get_cert_by_index
  | tls_cert_get_cert_by_digest
  | tls_cert_get_cert_by_sni
  | tls_cert_get_priv_key_by_index
  | tls_cert_get_priv_key_by_digest
  | tls_cert_get_priv_key_by_sni
  | sign_ed25519_new_from_entropy
  | sign_ed25519_get
  | sign_ed25519_sign_by_index
  | sign_ed25519_sign_by_pub_key
deriving DecidableEq, Repr, Fintype

/-- Operation tag of a request value (constructor-wise). -/
def LairClientApi.op : LairClientApi → LairApiOp
  | .lair_get_server_info => .lair_get_server_info
  | .lair_get_last_entry_index => .lair_get_last_entry_index
  | .lair_get_entry_type _ => .lair_get_entry_type
  | .tls_cert_new_self_signed_from_entropy _ => .tls_cert_new_self_signed_from_entropy
  | .tls_cert_get _ => .tls_cert_get
  | .tls_cert_get_cert_by_index _ => .tls_cert_get_cert_by_index
  | .tls_cert_get_cert_by_digest _ => .tls_cert_get_cert_by_digest
  | .tls_cert_get_cert_by_sni _ => .tls_cert_get_cert_by_sni
  | .tls_cert_get_priv_key_by_index _ => .tls_cert_get_priv_key_by_index
  | .tls_cert_get_priv_key_by_digest _ => .tls_cert_get_priv_key_by_digest
  | .tls_cert_get_priv_key_by_sni _ => .tls_cert_get_priv_key_by_sni
  | .sign_ed25519_new_from_entropy => .sign_ed25519_new_from_entropy
  | .sign_ed25519_get _ => .sign_ed25519_get
  | .sign_ed25519_sign_by_index _ _ => .sign_ed25519_sign_by_index
  | .sign_ed25519_sign_by_pub_key _ _ => .sign_ed25519_sign_by_pub_key

/-- Reply type of each request constructor, as declared by the
corresponding fn return type in the source. -/
def LairClientApi.Reply : LairClientApi → Type
  | .lair_get_server_info => LairServerInfo
  | .lair_get_last_entry_index => KeystoreIndex
  | .lair_get_entry_type _ => LairEntryType
  | .tls_cert_new_self_signed_from_entropy _ => KeystoreIndex × CertSni × CertDigest
  | .tls_cert_get _ => CertSni × CertDigest
  | .tls_cert_get_cert_by_index _ => Cert
  | .tls_cert_get_cert_by_digest _ => Cert
  | .tls_cert_get_cert_by_sni _ => Cert
  | .tls_cert_get_priv_key_by_index _ => CertPrivKey
  | .tls_cert_get_priv_key_by_digest _ => CertPrivKey
  | .tls_cert_get_priv_key_by_sni _ => CertPrivKey
  | .sign_ed25519_new_from_entropy => KeystoreIndex × SignEd25519PubKey
  | .sign_ed25519_get _ => SignEd25519PubKey
  | .sign_ed25519_sign_by_index _ _ => SignEd25519Signature
  | .sign_ed25519_sign_by_pub_key _ _ => SignEd25519Signature

/-- Reply type per operation tag: the result column of the operation
table in the spec (section 4.2). -/
def LairApiOp.replyOf : LairApiOp → Type
  | .lair_get_server_info => LairServerInfo
  | .lair_get_last_entry_index => KeystoreIndex
  | .lair_get_entry_type => LairEntryType
  | .tls_cert_new_self_signed_from_entropy => KeystoreIndex × CertSni × CertDigest
  | .tls_cert_get => CertSni × CertDigest
  | .tls_cert_get_cert_by_index => Cert
  | .tls_cert_get_cert_by_digest => Cert
  | .tls_cert_get_cert_by_sni => Cert
  | .tls_cert_get_priv_key_by_index => CertPrivKey
  | .tls_cert_get_priv_key_by_digest => CertPrivKey
  | .tls_cert_get_priv_key_by_sni => CertPrivKey
  | .sign_ed25519_new_from_entropy => KeystoreIndex × SignEd25519PubKey
  | .sign_ed25519_get => SignEd25519PubKey
  | .sign_ed25519_sign_by_index => SignEd25519Signature
  | .sign_ed25519_sign_by_pub_key => SignEd25519Signature

/-- Modelled from the spec: the entry directory state (section 4.1), whose
implementation is not among the sources here (actor.rs only declares the
client api surface).  Entries are allocated at consecutive indices
starting from 0; the table records each allocated slot's entry tag, with a
tombstoned slot recorded as Invalid. -/
structure Directory where
  table : List LairEntryType
deriving DecidableEq, Repr

/-- Modelled from the spec: an index is allocated when it is at most the
highest allocated index. -/
def Directory.allocated (dir : Directory) (i : Nat) : Prop :=
  i < dir.table.length

instance (dir : Directory) (i : Nat) : Decidable (dir.allocated i) :=
  inferInstanceAs (Decidable (i < dir.table.length))

/-- Modelled from the spec: entry_type(index) (serving lair_get_entry_type)
returns the tag of the slot, and Invalid for an unallocated index, rather
than failing (it is total, never an error). -/
def Directory.entry_type (dir : Directory) (i : Nat) : LairEntryType :=
  dir.table.getD i LairEntryType.Invalid

/-- Modelled from the spec: tombstoning sets a slot's tag to Invalid
(payload discarded); indices are never reused. -/
def Directory.tombstone (dir : Directory) (i : Nat) : Directory :=
  ⟨dir.table.set i LairEntryType.Invalid⟩

/-- C1: the numeric codes of the entry-type and algorithm enums are exactly
Invalid = 0x000, TlsCert = 0x100, SignEd25519 = 0x200 and
Ed25519 = 0x200, EcdsaP256Sha256 = 0x201, EcdsaP384Sha384 = 0x202. -/
theorem entry_type_and_alg_codes :
    LairEntryType.toCode .Invalid = 0x000 ∧
    LairEntryType.toCode .TlsCert = 0x100 ∧
    LairEntryType.toCode .SignEd25519 = 0x200 ∧
    TlsCertAlg.toCode .PkcsEd25519 = 0x200 ∧
    TlsCertAlg.toCode .PkcsEcdsaP256Sha256 = 0x201 ∧
    TlsCertAlg.toCode .PkcsEcdsaP384Sha384 = 0x202 := by
  decide

/-- C2: for every u32, LairEntryType::parse succeeds exactly on the three
defined codes 0x000, 0x100, 0x200, returning the variant with that code,
and fails with the error string on every other input, never coercing an
unknown code to Invalid. -/
theorem lair_entry_type_parse_spec (d : Nat) (hd : d < 4294967296) :
    (d = 0x000 → LairEntryType.parse d = .ok .Invalid) ∧
    (d = 0x100 → LairEntryType.parse d = .ok .TlsCert) ∧
    (d = 0x200 → LairEntryType.parse d = .ok .SignEd25519) ∧
    (∀ v, LairEntryType.parse d = .ok v → LairEntryType.toCode v = d) ∧
    (d ≠ 0x000 → d ≠ 0x100 → d ≠ 0x200 →
      LairEntryType.parse d = .error ("invalide lair entry type")) := by
  refine ⟨fun h => by subst h; rfl, fun h => by subst h; rfl,
    fun h => by subst h; rfl, ?_, ?_⟩
  · intro v hv
    unfold LairEntryType.parse at hv
    split_ifs at hv with h1 h2 h3
    · cases hv; exact h1.symm
    · cases hv; exact h2.symm
    · cases hv; exact h3.symm
  · intro h1 h2 h3
    unfold LairEntryType.parse
    rw [if_neg (by simpa [LairEntryType.toCode] using h1),
      if_neg (by simpa [LairEntryType.toCode] using h2),
      if_neg (by simpa [LairEntryType.toCode] using h3)]

/-- C2 witness: code 0x300 is inside u32 range and fails to parse. -/
theorem lair_entry_type_parse_spec_witness :
    LairEntryType.parse 768 = .error ("invalide lair entry type") :=
  (lair_entry_type_parse_spec 768 (by decide)).2.2.2.2
    (by decide) (by decide) (by decide)

/-- C3: for every u32, TlsCertAlg::parse succeeds exactly on the three
defined algorithm codes 0x200, 0x201, 0x202, returning the variant with
that code, and fails with the unsupported-algorithm error on every other
input. -/
theorem tls_cert_alg_parse_spec (d : Nat) (hd : d < 4294967296) :
    (d = 0x200 → TlsCertAlg.parse d = .ok .PkcsEd25519) ∧
    (d = 0x201 → TlsCertAlg.parse d = .ok .PkcsEcdsaP256Sha256) ∧
    (d = 0x202 → TlsCertAlg.parse d = .ok .PkcsEcdsaP384Sha384) ∧
    (∀ v, TlsCertAlg.parse d = .ok v → TlsCertAlg.toCode v = d) ∧
    (d ≠ 0x200 → d ≠ 0x201 → d ≠ 0x202 →
      TlsCertAlg.parse d = .error ("invalide tls cert alg")) := by
  refine ⟨fun h => by subst h; rfl, fun h => by subst h; rfl,
    fun h => by subst h; rfl, ?_, ?_⟩
  · intro v hv
    unfold TlsCertAlg.parse at hv
    split_ifs at hv with h1 h2 h3
    · cases hv; exact h1.symm
    · cases hv; exact h2.symm
    · cases hv; exact h3.symm
  · intro h1 h2 h3
    unfold TlsCertAlg.parse
    rw [if_neg (by simpa [TlsCertAlg.toCode] using h1),
      if_neg (by simpa [TlsCertAlg.toCode] using h2),
      if_neg (by simpa [TlsCertAlg.toCode] using h3)]

/-- C3 witness: code 0x203 is inside u32 range and fails to parse. -/
theorem tls_cert_alg_parse_spec_witness :
    TlsCertAlg.parse 515 = .error ("invalide tls cert alg") :=
  (tls_cert_alg_parse_spec 515 (by decide)).2.2.2.2
    (by decide) (by decide) (by decide)

/-- C4: verification never fails: for every abstract crypto capability,
public key, message and signature the verify operation returns Ok of a
boolean, and on a malformed key or signature (wrong length) it returns
Ok false rather than an error. -/
theorem verify_total_and_false_on_malformed
    (goodSig : Bytes → Bytes → Bytes → Bool) (k : SignEd25519PubKey)
    (m : Bytes) (s : SignEd25519Signature) :
    (∃ b, SignEd25519PubKey.verify goodSig k m s = .ok b) ∧
    (¬ (k.bytes.length = 32 ∧ s.bytes.length = 64) →
      SignEd25519PubKey.verify goodSig k m s = .ok false) := by
  constructor
  · unfold SignEd25519PubKey.verify sign_ed25519_verify
    split_ifs <;> exact ⟨_, rfl⟩
  · intro hm
    unfold SignEd25519PubKey.verify sign_ed25519_verify
    rw [if_neg hm]

/-- C4 witness: a 3 byte key and 1 byte signature verify to Ok false. -/
theorem verify_total_and_false_on_malformed_witness :
    SignEd25519PubKey.verify (fun _ _ _ => true)
      (SignEd25519PubKey.fromVec [1, 2, 3]) []
      (SignEd25519Signature.fromVec [4]) = .ok false :=
  (verify_total_and_false_on_malformed (fun _ _ _ => true)
      (SignEd25519PubKey.fromVec [1, 2, 3]) []
      (SignEd25519Signature.fromVec [4])).2 (by decide)

/-- C5: the client request type is a single tagged union with exactly one
variant per operation: there are exactly fifteen operations, every
operation is covered by a request constructor, and every request
constructor has exactly the typed reply of the section 4.2 table. -/
theorem client_api_shape :
    Fintype.card LairApiOp = 15 ∧
    (∀ o : LairApiOp, ∃ r : LairClientApi, LairClientApi.op r = o) ∧
    (∀ r : LairClientApi,
      LairClientApi.Reply r = LairApiOp.replyOf (LairClientApi.op r)) := by
  refine ⟨by decide, ?_, ?_⟩
  · intro o
    cases o
    · exact ⟨.lair_get_server_info, rfl⟩
    · exact ⟨.lair_get_last_entry_index, rfl⟩
    · exact ⟨.lair_get_entry_type ⟨0⟩, rfl⟩
    · exact ⟨.tls_cert_new_self_signed_from_entropy TlsCertOptions.default, rfl⟩
    · exact ⟨.tls_cert_get ⟨0⟩, rfl⟩
    · exact ⟨.tls_cert_get_cert_by_index ⟨0⟩, rfl⟩
    · exact ⟨.tls_cert_get_cert_by_digest ⟨[]⟩, rfl⟩
    · exact ⟨.tls_cert_get_cert_by_sni ⟨""⟩, rfl⟩
    · exact ⟨.tls_cert_get_priv_key_by_index ⟨0⟩, rfl⟩
    · exact ⟨.tls_cert_get_priv_key_by_digest ⟨[]⟩, rfl⟩
    · exact ⟨.tls_cert_get_priv_key_by_sni ⟨""⟩, rfl⟩
    · exact ⟨.sign_ed25519_new_from_entropy, rfl⟩
    · exact ⟨.sign_ed25519_get ⟨0⟩, rfl⟩
    · exact ⟨.sign_ed25519_sign_by_index ⟨0⟩ [], rfl⟩
    · exact ⟨.sign_ed25519_sign_by_pub_key ⟨[]⟩ [], rfl⟩
  · intro r
    cases r <;> rfl

/-- C6: lair_get_entry_type is total (returns an entry type, never an
error) and returns Invalid both on an unallocated index beyond the
highest allocated one and on a tombstoned index. -/
theorem lair_get_entry_type_stub_semantics (dir : Directory) (i : Nat) :
    (¬ dir.allocated i → dir.entry_type i = LairEntryType.Invalid) ∧
    (dir.tombstone i).entry_type i = LairEntryType.Invalid := by
  constructor
  · intro h
    unfold Directory.entry_type
    exact List.getD_eq_default _ _ (Nat.le_of_not_lt h)
  · unfold Directory.entry_type Directory.tombstone
    rcases Nat.lt_or_ge i dir.table.length with h | h
    · rw [List.getD_eq_getElem _ _ (by simpa using h)]
      simp
    · exact List.getD_eq_default _ _ (by simpa using h)

/-- C6 witness: in a one-entry directory, index 5 is unallocated and reads
as Invalid, and tombstoning index 0 makes index 0 read as Invalid. -/
theorem lair_get_entry_type_stub_semantics_witness :
    (Directory.mk [LairEntryType.TlsCert]).entry_type 5 =
        LairEntryType.Invalid ∧
      ((Directory.mk [LairEntryType.TlsCert]).tombstone 0).entry_type 0 =
        LairEntryType.Invalid :=
  ⟨(lair_get_entry_type_stub_semantics ⟨[LairEntryType.TlsCert]⟩ 5).1
      (by decide),
    (lair_get_entry_type_stub_semantics ⟨[LairEntryType.TlsCert]⟩ 0).2⟩

/-- C7: the server-to-client event union has exactly one variant,
request_unlock_passphrase, and its reply type is String. -/
theorem event_channel_single_event :
    (∀ e : LairClientEvent, e = LairClientEvent.request_unlock_passphrase) ∧
    LairClientEvent.Reply LairClientEvent.request_unlock_passphrase =
      String :=
  ⟨fun e => by cases e; rfl, rfl⟩

/-- C8: each handle value type round-trips its wrapped buffer or string
through construction, and equality and ordering of two handles coincide
with equality and ordering of the wrapped data. -/
theorem handle_round_trip_eq_and_order :
    (∀ v : Bytes, Cert.into (Cert.fromVec v) = v) ∧
    (∀ v w : Bytes, Cert.fromVec v = Cert.fromVec w ↔ v = w) ∧
    (∀ v w : Bytes, Cert.le (Cert.fromVec v) (Cert.fromVec w) = bytesLe v w) ∧
    (∀ v : Bytes, CertPrivKey.into (CertPrivKey.fromVec v) = v) ∧
    (∀ v w : Bytes, CertPrivKey.fromVec v = CertPrivKey.fromVec w ↔ v = w) ∧
    (∀ v w : Bytes,
      CertPrivKey.le (CertPrivKey.fromVec v) (CertPrivKey.fromVec w) =
        bytesLe v w) ∧
    (∀ v : Bytes, CertDigest.into (CertDigest.fromVec v) = v) ∧
    (∀ v w : Bytes, CertDigest.fromVec v = CertDigest.fromVec w ↔ v = w) ∧
    (∀ v w : Bytes,
      CertDigest.le (CertDigest.fromVec v) (CertDigest.fromVec w) =
        bytesLe v w) ∧
    (∀ v : Bytes, SignEd25519PubKey.into (SignEd25519PubKey.fromVec v) = v) ∧
    (∀ v w : Bytes,
      SignEd25519PubKey.fromVec v = SignEd25519PubKey.fromVec w ↔ v = w) ∧
    (∀ v w : Bytes,
      SignEd25519PubKey.le (SignEd25519PubKey.fromVec v)
        (SignEd25519PubKey.fromVec w) = bytesLe v w) ∧
    (∀ v : Bytes,
      SignEd25519Signature.into (SignEd25519Signature.fromVec v) = v) ∧
    (∀ v w : Bytes,
      SignEd25519Signature.fromVec v = SignEd25519Signature.fromVec w ↔
        v = w) ∧
    (∀ v w : Bytes,
      SignEd25519Signature.le (SignEd25519Signature.fromVec v)
        (SignEd25519Signature.fromVec w) = bytesLe v w) ∧
    (∀ s : String, CertSni.into (CertSni.fromString s) = s) ∧
    (∀ s t : String, CertSni.fromString s = CertSni.fromString t ↔ s = t) ∧
    (∀ s t : String,
      CertSni.le (CertSni.fromString s) (CertSni.fromString t) ↔ s ≤ t) := by
  refine ⟨fun v => rfl, fun v w => ?_, fun v w => rfl,
    fun v => rfl, fun v w => ?_, fun v w => rfl,
    fun v => rfl, fun v w => ?_, fun v w => rfl,
    fun v => rfl, fun v w => ?_, fun v w => rfl,
    fun v => rfl, fun v w => ?_, fun v w => rfl,
    fun s => rfl, fun s t => ?_, fun s t => Iff.rfl⟩
  · exact ⟨fun h => congrArg Cert.bytes h, fun h => congrArg Cert.fromVec h⟩
  · exact ⟨fun h => congrArg CertPrivKey.bytes h,
      fun h => congrArg CertPrivKey.fromVec h⟩
  · exact ⟨fun h => congrArg CertDigest.bytes h,
      fun h => congrArg CertDigest.fromVec h⟩
  · exact ⟨fun h => congrArg SignEd25519PubKey.bytes h,
      fun h => congrArg SignEd25519PubKey.fromVec h⟩
  · exact ⟨fun h => congrArg SignEd25519Signature.bytes h,
      fun h => congrArg SignEd25519Signature.fromVec h⟩
  · exact ⟨fun h => congrArg CertSni.sni h, fun h => congrArg CertSni.fromString h⟩

/-- C9: default values: TlsCertAlg and the alg field of a default
TlsCertOptions are both PkcsEd25519, and the default LairEntryType is
Invalid. -/
theorem default_values :
    TlsCertAlg.default = TlsCertAlg.PkcsEd25519 ∧
    TlsCertOptions.default.alg = TlsCertAlg.PkcsEd25519 ∧
    LairEntryType.default = LairEntryType.Invalid :=
  ⟨rfl, rfl, rfl⟩

/-- C10: the fixed-size handle types enforce no length check: for every
byte vector, of any length, the From constructors of CertDigest,
SignEd25519PubKey and SignEd25519Signature succeed and wrap the buffer
unchanged. -/
theorem fixed_size_handles_unchecked :
    ∀ v : Bytes,
      CertDigest.into (CertDigest.fromVec v) = v ∧
      SignEd25519PubKey.into (SignEd25519PubKey.fromVec v) = v ∧
      SignEd25519Signature.into (SignEd25519Signature.fromVec v) = v :=
  fun _ => ⟨rfl, rfl, rfl⟩

end LairKeystoreApi
